import Mathlib

/-!
Shallow embedding of the PyMuscle orchestration layer
(src/pymuscle/muscle.py): the Muscle class composing a motor-neuron-pool
collaborator with a muscle-fibers collaborator, and the StandardMuscle
preset's parameter derivation.

Numeric values exchanged with the collaborators (excitations, activations,
forces, step sizes) are modelled as exact rationals.  The collaborator
objects (PotvinFuglevand2017MotorNeuronPool, PotvinFuglevand2017MuscleFibers,
PyMuscleFibers) are implemented outside this layer; here they are abstract
state machines: a motor-unit count, a pure step function over an explicit
internal state that may fail with an error of an abstract type, and (for
fibers) a current-forces accessor over the state.  Stateful Python methods
become functions returning the new state.
-/

/-- Numeric values exchanged between the orchestrator and its collaborators. -/
abbrev Val := ℚ

/-- The construction-time error of Muscle.mk in the source: the assert in
Muscle.init fails when the two collaborators report different motor-unit
counts. -/
inductive ConfigurationError where
  | mismatch
deriving DecidableEq

/-- A motor-neuron-pool collaborator: a fixed motor_unit_count and a step
operation taking the excitatory input vector and the step size.  The Python
object's mutable internal state is the explicit state component; a raised
exception is an error value of the abstract type epsi. -/
structure MotorNeuronPoolModel (epsi sigma : Type) where
  motor_unit_count : Nat
  stepF : sigma → List Val → Val → Except epsi (List Val × sigma)
  state : sigma

/-- A muscle-fibers collaborator: a fixed motor_unit_count, a step operation
taking only the activation vector (the source call on line 85 passes a
single argument), and the current_forces accessor reading the cached value
from the internal state. -/
structure MuscleFibersModel (epsi sigma : Type) where
  motor_unit_count : Nat
  stepF : sigma → List Val → Except epsi (Val × sigma)
  current_forcesF : sigma → Val
  state : sigma

/-- The Muscle orchestrator: owns one pool collaborator and one fibers
collaborator (fields pool and fibers for Python self._pool, self._fibers). -/
structure Muscle (epsi sigmaP sigmaF : Type) where
  pool : MotorNeuronPoolModel epsi sigmaP
  fibers : MuscleFibersModel epsi sigmaF

/-- Muscle.init: the constructor asserts that the two collaborators
report the same motor_unit_count, and stores them unchanged. -/
def Muscle.init (p : MotorNeuronPoolModel epsi sigmaP)
    (f : MuscleFibersModel epsi sigmaF) :
    Except ConfigurationError (Muscle epsi sigmaP sigmaF) :=
  if p.motor_unit_count = f.motor_unit_count then Except.ok (Muscle.mk p f)
  else Except.error ConfigurationError.mismatch

/-- The motor_unit_count accessor: returns the pool collaborator's count. -/
def Muscle.motor_unit_count (m : Muscle epsi sigmaP sigmaF) : Nat :=
  m.pool.motor_unit_count

/-- The current_forces accessor: reads the fibers collaborator's cached
value; a pure projection, it performs no computation step. -/
def Muscle.current_forces (m : Muscle epsi sigmaP sigmaF) : Val :=
  m.fibers.current_forcesF m.fibers.state

/-- The argument of Muscle.step: either a single scalar or an array of
per-motor-unit values (Union[float, np.ndarray] in the source). -/
inductive MotorPoolInput where
  | scalar (v : Val)
  | vector (xs : List Val)

/-- The input normalization at the top of Muscle.step: a scalar is expanded
with np.full to a uniform vector of the pool's motor_unit_count; an array is
passed through unchanged, whatever its length. -/
def expandInput (n : Nat) : MotorPoolInput → List Val
  | MotorPoolInput.scalar v => List.replicate n v
  | MotorPoolInput.vector xs => xs

/-- Muscle.step: expand a scalar input to a full array of length
pool.motor_unit_count, call the pool's step with the input and the step
size, then call the fibers' step with the pool's output, returning its
result.  A collaborator error propagates unchanged. -/
def Muscle.step (m : Muscle epsi sigmaP sigmaF) (motor_pool_input : MotorPoolInput)
    (step_size : Val) : Except epsi (Val × Muscle epsi sigmaP sigmaF) :=
  match m.pool.stepF m.pool.state
      (expandInput m.pool.motor_unit_count motor_pool_input) step_size with
  | Except.error e => Except.error e
  | Except.ok (motor_pool_output, poolState) =>
    match m.fibers.stepF m.fibers.state motor_pool_output with
    | Except.error e => Except.error e
    | Except.ok (force, fiberState) =>
      Except.ok (force,
        Muscle.mk { m.pool with state := poolState }
                  { m.fibers with state := fiberState })

/-- Python's int() applied to a rational: truncation toward zero. -/
def pyInt (q : Val) : Int := if 0 ≤ q then ⌊q⌋ else ⌈q⌉

/-- Constructor arguments of the pool implementation chosen by the presets.
The class body is outside the orchestration layer, so the construction is
recorded as the argument tuple the preset forwards. -/
structure PotvinFuglevand2017MotorNeuronPool where
  motor_unit_count : Int
  apply_fatigue : Bool
  pre_calc_firing_rates : Bool

/-- Constructor arguments of the fiber implementation used by
StandardMuscle, recorded as the argument tuple the preset forwards. -/
structure PyMuscleFibers where
  motor_unit_count : Int
  force_conversion_factor : Val
  apply_fatigue : Bool

/-- The StandardMuscle preset's construction-time data: the stored
max_force and force_conversion_factor and the two collaborator
constructions it performs. -/
structure StandardMuscle where
  max_force : Val
  force_conversion_factor : Val
  pool : PotvinFuglevand2017MotorNeuronPool
  fibers : PyMuscleFibers

/-- The derivation in StandardMuscle.init:
motor_unit_count = int(max_force / (force_conversion_factor * 17.66)). -/
def StandardMuscle.derivedCount (max_force force_conversion_factor : Val) : Int :=
  pyInt (max_force / (force_conversion_factor * 17.66))

/-- StandardMuscle.init with every argument explicit: derives the
motor-unit count, builds the pool with (count, apply_central_fatigue,
pre_calc_firing_rates) and the fibers with (count, force_conversion_factor,
apply_peripheral_fatigue). -/
def StandardMuscle.init (max_force force_conversion_factor : Val)
    (apply_central_fatigue apply_peripheral_fatigue pre_calc_firing_rates : Bool) :
    StandardMuscle :=
  let motor_unit_count := StandardMuscle.derivedCount max_force force_conversion_factor
  { max_force := max_force
    force_conversion_factor := force_conversion_factor
    pool := PotvinFuglevand2017MotorNeuronPool.mk motor_unit_count
      apply_central_fatigue pre_calc_firing_rates
    fibers := PyMuscleFibers.mk motor_unit_count force_conversion_factor
      apply_peripheral_fatigue }

/-- StandardMuscle.init at the source's declared default flag values:
apply_central_fatigue = False, apply_peripheral_fatigue = True,
pre_calc_firing_rates = False. -/
def StandardMuscle.initDefaults (max_force force_conversion_factor : Val) :
    StandardMuscle :=
  StandardMuscle.init max_force force_conversion_factor false true false

/-- A pool collaborator that records every (input, step_size) argument pair
it receives in its state and always outputs the fixed activation act. -/
def recordingPool (epsi : Type) (n : Nat) (act : List Val) :
    MotorNeuronPoolModel epsi (List (List Val × Val)) :=
  { motor_unit_count := n
    stepF := fun s inp dt => Except.ok (act, s ++ [(inp, dt)])
    state := [] }

/-- A fibers collaborator that records every activation vector it receives
in its state and always returns the fixed force frc. -/
def recordingFibers (epsi : Type) (n : Nat) (frc : Val) :
    MuscleFibersModel epsi (List (List Val)) :=
  { motor_unit_count := n
    stepF := fun s a => Except.ok (frc, s ++ [a])
    current_forcesF := fun _ => 0
    state := [] }

/-- Modelled from the spec: the fiber collaborator caches the force its
step computes, and its current_forces accessor returns that cached value
(the fiber implementations are outside the orchestration layer, so this
contract stands in for their code). -/
def MuscleFibersModel.CachesForces (f : MuscleFibersModel epsi sigma) : Prop :=
  ∀ s a frc s2, f.stepF s a = Except.ok (frc, s2) → f.current_forcesF s2 = frc

/-- A fibers collaborator that always returns the fixed force frc and
caches it in its state, satisfying the caching contract. -/
def cachingFibers (epsi : Type) (n : Nat) (frc : Val) :
    MuscleFibersModel epsi Val :=
  { motor_unit_count := n
    stepF := fun _ _ => Except.ok (frc, frc)
    current_forcesF := fun s => s
    state := 0 }


/-- Unfolding lemma: when the pool's step fails, Muscle.step returns that
very error. -/
theorem Muscle.step_pool_error (m : Muscle epsi sigmaP sigmaF)
    (i : MotorPoolInput) (dt : Val) (e : epsi)
    (hp : m.pool.stepF m.pool.state (expandInput m.pool.motor_unit_count i) dt
      = Except.error e) :
    m.step i dt = Except.error e := by
  unfold Muscle.step
  simp only [hp]

/-- Unfolding lemma: when the pool's step succeeds and the fibers' step
fails on the pool's output, Muscle.step returns the fibers' error. -/
theorem Muscle.step_fiber_error (m : Muscle epsi sigmaP sigmaF)
    (i : MotorPoolInput) (dt : Val) (act : List Val) (ps : sigmaP) (e : epsi)
    (hp : m.pool.stepF m.pool.state (expandInput m.pool.motor_unit_count i) dt
      = Except.ok (act, ps))
    (hf : m.fibers.stepF m.fibers.state act = Except.error e) :
    m.step i dt = Except.error e := by
  unfold Muscle.step
  simp only [hp, hf]

/-- Unfolding lemma: when both collaborator steps succeed, Muscle.step
returns the fibers' force and the muscle with the two updated states. -/
theorem Muscle.step_ok (m : Muscle epsi sigmaP sigmaF)
    (i : MotorPoolInput) (dt : Val) (act : List Val) (ps : sigmaP)
    (frc : Val) (fs : sigmaF)
    (hp : m.pool.stepF m.pool.state (expandInput m.pool.motor_unit_count i) dt
      = Except.ok (act, ps))
    (hf : m.fibers.stepF m.fibers.state act = Except.ok (frc, fs)) :
    m.step i dt = Except.ok (frc,
      Muscle.mk { m.pool with state := ps } { m.fibers with state := fs }) := by
  unfold Muscle.step
  simp only [hp, hf]

/-- C1: constructing a Muscle fails with a ConfigurationError exactly when
the pool's motor_unit_count differs from the fibers model's
motor_unit_count, succeeds when they are equal, and the check is never
re-validated by later operations: step's observable output is unchanged
when the fibers collaborator's reported count is replaced by any other
value. -/
theorem muscle_construction_count_check (epsi sigmaP sigmaF : Type)
    (p : MotorNeuronPoolModel epsi sigmaP) (f : MuscleFibersModel epsi sigmaF) :
    (Muscle.init p f = Except.ok (Muscle.mk p f)
        ↔ p.motor_unit_count = f.motor_unit_count)
    ∧ (Muscle.init p f = Except.error ConfigurationError.mismatch
        ↔ ¬ p.motor_unit_count = f.motor_unit_count)
    ∧ (∀ (k : Nat) (i : MotorPoolInput) (dt : Val),
        (Muscle.step (Muscle.mk p { f with motor_unit_count := k }) i dt).map Prod.fst
          = (Muscle.step (Muscle.mk p f) i dt).map Prod.fst) := by
  refine ⟨?_, ?_, ?_⟩
  · unfold Muscle.init
    by_cases hc : p.motor_unit_count = f.motor_unit_count <;> simp [hc]
  · unfold Muscle.init
    by_cases hc : p.motor_unit_count = f.motor_unit_count <;> simp [hc]
  · intro k i dt
    cases hp : p.stepF p.state (expandInput p.motor_unit_count i) dt with
    | error e =>
      rw [Muscle.step_pool_error (Muscle.mk p { f with motor_unit_count := k }) i dt e hp,
        Muscle.step_pool_error (Muscle.mk p f) i dt e hp]
    | ok r =>
      obtain ⟨act, ps⟩ := r
      cases hf : f.stepF f.state act with
      | error e =>
        rw [Muscle.step_fiber_error (Muscle.mk p { f with motor_unit_count := k })
            i dt act ps e hp hf,
          Muscle.step_fiber_error (Muscle.mk p f) i dt act ps e hp hf]
      | ok r2 =>
        obtain ⟨frc, fs⟩ := r2
        rw [Muscle.step_ok (Muscle.mk p { f with motor_unit_count := k })
            i dt act ps frc fs hp hf,
          Muscle.step_ok (Muscle.mk p f) i dt act ps frc fs hp hf]
        rfl

/-- The argument history a recording pool accumulated, read off a step
result (empty for an error result). -/
def poolTrace (r : Except epsi (Val × Muscle epsi (List (List Val × Val)) sigmaF)) :
    List (List Val × Val) :=
  match r with
  | Except.ok (_, m) => m.pool.state
  | Except.error _ => []

/-- The argument history a recording fibers collaborator accumulated, read
off a step result (empty for an error result). -/
def fiberTrace (r : Except epsi (Val × Muscle epsi sigmaP (List (List Val)))) :
    List (List Val) :=
  match r with
  | Except.ok (_, m) => m.fibers.state
  | Except.error _ => []

/-- A concrete muscle with recording collaborators: two motor units, the
pool always outputs activation [5, 6], the fibers always return force 7. -/
def cexMuscle : Muscle Nat (List (List Val × Val)) (List (List Val)) :=
  Muscle.mk (recordingPool Nat 2 [5, 6]) (recordingFibers Nat 2 7)

/-- C2 counterexample: stepping the same muscle with step sizes 1 and 2,
the fibers collaborator's step receives exactly the same argument (the
activation vector alone), so it does not receive the step size; the pool's
recorded argument pair does contain the step size. -/
theorem step_size_not_received_by_fibers :
    (1 : Val) ≠ 2
    ∧ fiberTrace (cexMuscle.step (MotorPoolInput.scalar 3) 1) = [[5, 6]]
    ∧ fiberTrace (cexMuscle.step (MotorPoolInput.scalar 3) 2) = [[5, 6]]
    ∧ poolTrace (cexMuscle.step (MotorPoolInput.scalar 3) 1) = [([3, 3], 1)]
    ∧ poolTrace (cexMuscle.step (MotorPoolInput.scalar 3) 2) = [([3, 3], 2)] := by
  refine ⟨by norm_num, rfl, rfl, rfl, rfl⟩

/-- C2 (amended): the step size is passed through to the pool collaborator
uncombined, while the fibers collaborator's step receives only the
activation vector and no step size; the orchestrator keeps no time
accumulator of its own. -/
theorem step_size_forwarded_to_pool_only (epsi : Type) (n : Nat)
    (act : List Val) (frc : Val) (i : MotorPoolInput) (dt : Val) :
    Muscle.step (Muscle.mk (recordingPool epsi n act) (recordingFibers epsi n frc)) i dt
      = Except.ok (frc,
          Muscle.mk { recordingPool epsi n act with state := [(expandInput n i, dt)] }
                    { recordingFibers epsi n frc with state := [act] }) := by
  exact Muscle.step_ok _ i dt act [(expandInput n i, dt)] frc [act] rfl rfl

/-- C3: Muscle.step first calls the pool's step with the (possibly
expanded) input and the step size; whatever activation vector the pool
returns is passed exactly to the fibers' step, and the fibers' result is
returned unchanged as the force output, alongside the two updated
collaborator states. -/
theorem muscle_step_sequencing (epsi sigmaP sigmaF : Type)
    (p : MotorNeuronPoolModel epsi sigmaP) (f : MuscleFibersModel epsi sigmaF)
    (i : MotorPoolInput) (dt : Val) (act : List Val) (ps : sigmaP)
    (frc : Val) (fs : sigmaF)
    (hp : p.stepF p.state (expandInput p.motor_unit_count i) dt = Except.ok (act, ps))
    (hf : f.stepF f.state act = Except.ok (frc, fs)) :
    Muscle.step (Muscle.mk p f) i dt
      = Except.ok (frc, Muscle.mk { p with state := ps } { f with state := fs }) :=
  Muscle.step_ok (Muscle.mk p f) i dt act ps frc fs hp hf

/-- Witness for C3 at a concrete muscle: a two-unit recording pool
outputting [5, 6] and recording fibers returning 7, stepped with the scalar
input 3 and step size 1. -/
theorem muscle_step_sequencing_concrete :
    Muscle.step (Muscle.mk (recordingPool Nat 2 [5, 6]) (recordingFibers Nat 2 7))
        (MotorPoolInput.scalar 3) 1
      = Except.ok (7,
          Muscle.mk { recordingPool Nat 2 [5, 6] with state := [([3, 3], 1)] }
                    { recordingFibers Nat 2 7 with state := [[5, 6]] }) :=
  muscle_step_sequencing Nat (List (List Val × Val)) (List (List Val))
    (recordingPool Nat 2 [5, 6]) (recordingFibers Nat 2 7)
    (MotorPoolInput.scalar 3) 1 [5, 6] [([3, 3], 1)] 7 [[5, 6]] rfl rfl

/-- C4: a scalar excitation behaves identically to the uniform vector of
length motor_unit_count: Muscle.step expands the scalar before any
collaborator call, so the two forms of the call coincide exactly. -/
theorem scalar_broadcast_equivalence (epsi sigmaP sigmaF : Type)
    (m : Muscle epsi sigmaP sigmaF) (v : Val) (dt : Val) :
    m.step (MotorPoolInput.scalar v) dt
      = m.step (MotorPoolInput.vector (List.replicate m.motor_unit_count v)) dt := rfl

/-- C5: for positive max_force and force_conversion_factor, the
StandardMuscle derivation int(max_force / (force_conversion_factor *
17.66)) equals the floor of the exact quotient: truncation toward zero
coincides with the floor on the nonnegative quotient, with no rounding. -/
theorem standard_muscle_derived_count_is_floor (max_force force_conversion_factor : Val)
    (hm : 0 < max_force) (hc : 0 < force_conversion_factor) :
    StandardMuscle.derivedCount max_force force_conversion_factor
      = ⌊max_force / (force_conversion_factor * 17.66)⌋ := by
  have h17 : (0 : Val) < 17.66 := by norm_num
  have hq : (0 : Val) ≤ max_force / (force_conversion_factor * 17.66) :=
    le_of_lt (div_pos hm (mul_pos hc h17))
  unfold StandardMuscle.derivedCount pyInt
  rw [if_pos hq]

/-- Witness for C5 at the spec's reference point max_force = 500,
force_conversion_factor = 0.028: the derived count equals the floor of the
exact quotient, which is 1011 (500 / 0.49448 = 1011 + 1009/6181). -/
theorem standard_muscle_derived_count_at_500 :
    StandardMuscle.derivedCount 500 (28/1000)
        = ⌊(500 : Val) / ((28/1000) * 17.66)⌋
    ∧ StandardMuscle.derivedCount 500 (28/1000) = 1011 := by
  have h := standard_muscle_derived_count_is_floor 500 (28/1000)
    (by norm_num) (by norm_num)
  refine ⟨h, ?_⟩
  rw [h, Int.floor_eq_iff]
  norm_num

/-- C10: strictly positive configuration values can derive a zero
motor-unit count: at max_force = 0.4, force_conversion_factor = 0.028 the
truncating derivation yields 0, and StandardMuscle (default flags) forwards
that zero count to both collaborator constructions with no positivity
check. -/
theorem standard_muscle_zero_derived_count :
    (0 : Val) < 2/5
    ∧ (0 : Val) < 28/1000
    ∧ StandardMuscle.derivedCount (2/5) (28/1000) = 0
    ∧ (StandardMuscle.initDefaults (2/5) (28/1000)).pool.motor_unit_count = 0
    ∧ (StandardMuscle.initDefaults (2/5) (28/1000)).fibers.motor_unit_count = 0 := by
  have h : StandardMuscle.derivedCount (2/5) (28/1000) = 0 := by
    unfold StandardMuscle.derivedCount pyInt
    rw [if_pos (by norm_num : (0:Val) ≤ (2/5) / ((28/1000) * 17.66))]
    rw [Int.floor_eq_iff]
    norm_num
  exact ⟨by norm_num, by norm_num, h, h, h⟩

/-- A pool collaborator reporting zero motor units. -/
def zeroPool : MotorNeuronPoolModel Nat Unit :=
  { motor_unit_count := 0
    stepF := fun s _ _ => Except.ok ([], s)
    state := () }

/-- A fibers collaborator reporting zero motor units. -/
def zeroFibers : MuscleFibersModel Nat Unit :=
  { motor_unit_count := 0
    stepF := fun s _ => Except.ok (0, s)
    current_forcesF := fun _ => 0
    state := () }

/-- C6 counterexample: collaborators both reporting zero motor units are
accepted by the constructor, and the resulting muscle's motor_unit_count is
0 — not a positive integer. -/
theorem zero_motor_unit_count_accepted :
    Muscle.init zeroPool zeroFibers = Except.ok (Muscle.mk zeroPool zeroFibers)
    ∧ (Muscle.mk zeroPool zeroFibers).motor_unit_count = 0 := ⟨rfl, rfl⟩

/-- C6 (amended): for every muscle accepted by the constructor,
motor_unit_count is a nonnegative integer (not necessarily positive) that
equals the pool collaborator's count and the fibers collaborator's count,
and stepping never changes it. -/
theorem motor_unit_count_fixed (epsi sigmaP sigmaF : Type)
    (p : MotorNeuronPoolModel epsi sigmaP) (f : MuscleFibersModel epsi sigmaF)
    (m : Muscle epsi sigmaP sigmaF)
    (h : Muscle.init p f = Except.ok m) :
    m.motor_unit_count = p.motor_unit_count
    ∧ m.motor_unit_count = f.motor_unit_count
    ∧ ∀ (i : MotorPoolInput) (dt frc : Val) (m2 : Muscle epsi sigmaP sigmaF),
        m.step i dt = Except.ok (frc, m2) → m2.motor_unit_count = m.motor_unit_count := by
  unfold Muscle.init at h
  by_cases hc : p.motor_unit_count = f.motor_unit_count
  · rw [if_pos hc] at h
    injection h with h
    subst h
    refine ⟨rfl, hc, ?_⟩
    intro i dt frc m2 hs
    cases hp : p.stepF p.state (expandInput p.motor_unit_count i) dt with
    | error e =>
      rw [Muscle.step_pool_error (Muscle.mk p f) i dt e hp] at hs
      exact Except.noConfusion hs
    | ok r =>
      obtain ⟨act, ps⟩ := r
      cases hf : f.stepF f.state act with
      | error e =>
        rw [Muscle.step_fiber_error (Muscle.mk p f) i dt act ps e hp hf] at hs
        exact Except.noConfusion hs
      | ok r2 =>
        obtain ⟨frc2, fs⟩ := r2
        rw [Muscle.step_ok (Muscle.mk p f) i dt act ps frc2 fs hp hf] at hs
        injection hs with hs
        have h2 : m2 = Muscle.mk { p with state := ps } { f with state := fs } :=
          (congrArg Prod.snd hs).symm
        rw [h2]
        rfl
  · rw [if_neg hc] at h
    exact Except.noConfusion h

/-- Witness for C6 at a concrete one-unit muscle built from recording
collaborators: the accepted muscle's count equals the pool's count. -/
theorem motor_unit_count_fixed_concrete :
    (Muscle.mk (recordingPool Nat 1 [2]) (recordingFibers Nat 1 4)).motor_unit_count
      = (recordingPool Nat 1 [2]).motor_unit_count :=
  (motor_unit_count_fixed Nat (List (List Val × Val)) (List (List Val))
    (recordingPool Nat 1 [2]) (recordingFibers Nat 1 4)
    (Muscle.mk (recordingPool Nat 1 [2]) (recordingFibers Nat 1 4)) rfl).1

/-- C7: when the fibers collaborator caches the force its step computes (the
contract the spec states for fiber models), the current_forces accessor
after a completed step returns exactly the force that step call returned;
the accessor itself is a pure projection and performs no computation. -/
theorem current_forces_matches_returned (epsi sigmaP sigmaF : Type)
    (m : Muscle epsi sigmaP sigmaF) (i : MotorPoolInput) (dt frc : Val)
    (m2 : Muscle epsi sigmaP sigmaF)
    (hcache : m.fibers.CachesForces)
    (hs : m.step i dt = Except.ok (frc, m2)) :
    m2.current_forces = frc := by
  cases hp : m.pool.stepF m.pool.state (expandInput m.pool.motor_unit_count i) dt with
  | error e =>
    rw [Muscle.step_pool_error m i dt e hp] at hs
    exact Except.noConfusion hs
  | ok r =>
    obtain ⟨act, ps⟩ := r
    cases hf : m.fibers.stepF m.fibers.state act with
    | error e =>
      rw [Muscle.step_fiber_error m i dt act ps e hp hf] at hs
      exact Except.noConfusion hs
    | ok r2 =>
      obtain ⟨frc2, fs⟩ := r2
      rw [Muscle.step_ok m i dt act ps frc2 fs hp hf] at hs
      injection hs with hs
      have h1 : frc2 = frc := congrArg Prod.fst hs
      have h2 : m2 = Muscle.mk { m.pool with state := ps } { m.fibers with state := fs } :=
        (congrArg Prod.snd hs).symm
      rw [h2]
      unfold Muscle.current_forces
      dsimp only
      rw [← h1]
      exact hcache m.fibers.state act frc2 fs hf

/-- Witness for C7 at a concrete muscle whose fibers cache their force:
after stepping, the accessor reads back the returned force 9. -/
theorem current_forces_matches_returned_concrete :
    (Muscle.mk { recordingPool Nat 1 [2] with state := [([3], 1)] }
        { cachingFibers Nat 1 9 with state := 9 }).current_forces = 9 :=
  current_forces_matches_returned Nat (List (List Val × Val)) Val
    (Muscle.mk (recordingPool Nat 1 [2]) (cachingFibers Nat 1 9))
    (MotorPoolInput.scalar 3) 1 9
    (Muscle.mk { recordingPool Nat 1 [2] with state := [([3], 1)] }
      { cachingFibers Nat 1 9 with state := 9 })
    (fun s a frc s2 h => by
      injection h with h1
      injection h1 with ha hb
      subst ha
      subst hb
      rfl)
    rfl

/-- C8: a failure from either collaborator's step propagates unchanged
through Muscle.step — the pool's error verbatim, and the fibers' error
verbatim after a successful pool step — and a non-scalar input of any
length, matching or not, is forwarded to the pool exactly as given, with
no validation, truncation or padding. -/
theorem collaborator_errors_propagate (epsi sigmaP sigmaF : Type)
    (p : MotorNeuronPoolModel epsi sigmaP) (f : MuscleFibersModel epsi sigmaF)
    (i : MotorPoolInput) (dt : Val) :
    (∀ e : epsi,
        p.stepF p.state (expandInput p.motor_unit_count i) dt = Except.error e →
        Muscle.step (Muscle.mk p f) i dt = Except.error e)
    ∧ (∀ (act : List Val) (ps : sigmaP) (e : epsi),
        p.stepF p.state (expandInput p.motor_unit_count i) dt = Except.ok (act, ps) →
        f.stepF f.state act = Except.error e →
        Muscle.step (Muscle.mk p f) i dt = Except.error e)
    ∧ (∀ (n : Nat) (act2 : List Val) (fv : Val) (xs : List Val),
        Muscle.step (Muscle.mk (recordingPool epsi n act2) (recordingFibers epsi n fv))
            (MotorPoolInput.vector xs) dt
          = Except.ok (fv,
              Muscle.mk { recordingPool epsi n act2 with state := [(xs, dt)] }
                        { recordingFibers epsi n fv with state := [act2] })) := by
  refine ⟨?_, ?_, ?_⟩
  · intro e hp
    exact Muscle.step_pool_error (Muscle.mk p f) i dt e hp
  · intro act ps e hp hf
    exact Muscle.step_fiber_error (Muscle.mk p f) i dt act ps e hp hf
  · intro n act2 fv xs
    exact Muscle.step_ok _ _ dt act2 [(xs, dt)] fv [act2] rfl rfl

/-- C9: StandardMuscle built with the source's default flag values
disables central fatigue (apply_fatigue = false forwarded to the pool
construction) and enables peripheral fatigue (apply_fatigue = true
forwarded to the fibers construction). -/
theorem standard_muscle_default_fatigue_flags (max_force force_conversion_factor : Val) :
    (StandardMuscle.initDefaults max_force force_conversion_factor).pool.apply_fatigue
        = false
    ∧ (StandardMuscle.initDefaults max_force force_conversion_factor).fibers.apply_fatigue
        = true := ⟨rfl, rfl⟩
